import Mathlib

/-!
Verification development for the DistyVault backend, a three-file Python
utility that truncates an input text, substitutes it into a fixed prompt
template, feeds the result on standard input to an external executable
and returns that process standard output decoded as UTF-8.

The embedding is shallow: Python strings become Lean strings (sequences
of Unicode scalar values, matching Python code points), byte strings
become lists of naturals below 256, the behaviour of the operating
system at the subprocess boundary becomes an explicit oracle argument,
and Python exceptions become the error side of an Except value.
-/

set_option maxRecDepth 100000

namespace DistyVault

/-- The Python exceptions that the program can let escape: a failed
spawn of the external executable (FileNotFoundError from subprocess.run),
a UnicodeDecodeError while decoding captured bytes, an IndexError from
reading a missing command-line argument, an OSError family failure while
opening or reading the input file, and a formatting error raised by
str.format. -/
inductive PyError where
  | fileNotFound
  | unicodeDecodeError
  | indexError
  | ioError
  | formatError
deriving DecidableEq

/-- The observable result of a subprocess run to completion with
capture_output=True: its exit status (negative for death by signal, as
in Python) and the captured standard-output and standard-error bytes. -/
structure ProcResult where
  exitCode : Int
  stdout : List Nat
  stderr : List Nat
deriving DecidableEq

/-- What subprocess.run can do for one spawn request: either the child
ran to completion (any exit status, streams captured), or the spawn
itself failed because the executable was missing, in which case
subprocess.run raises FileNotFoundError before anything is captured. -/
inductive SpawnResult where
  | ok : ProcResult → SpawnResult
  | spawnError : SpawnResult

/-- The subprocess boundary as an oracle: given the argument vector and
the bytes supplied on standard input, the environment decides what the
spawned process does. -/
def ProcessEnv : Type := List String → List Nat → SpawnResult

/-- UTF-8 encoding of one Unicode scalar value, by the standard 1 to 4
byte scheme. Models how Python encodes each code point of a str. -/
def utf8EncodeChar (c : Char) : List Nat :=
  let n := c.toNat
  if n < 0x80 then [n]
  else if n < 0x800 then [0xC0 + n / 0x40, 0x80 + n % 0x40]
  else if n < 0x10000 then
    [0xE0 + n / 0x1000, 0x80 + n / 0x40 % 0x40, 0x80 + n % 0x40]
  else
    [0xF0 + n / 0x40000, 0x80 + n / 0x1000 % 0x40,
     0x80 + n / 0x40 % 0x40, 0x80 + n % 0x40]

/-- UTF-8 encoding of a whole string, models Python str.encode with
the utf-8 codec. -/
def utf8Encode (s : String) : List Nat :=
  (s.data.map utf8EncodeChar).flatten

/-- A UTF-8 continuation byte: high bits 10. -/
abbrev utf8Cont (b : Nat) : Prop := 0x80 ≤ b ∧ b < 0xC0

/-- Strict UTF-8 decoding of a byte list into code points, models
Python bytes.decode with the utf-8 codec: rejects stray continuation
bytes, overlong forms, surrogate code points, values above U+10FFFF and
truncated sequences, returning none where Python raises
UnicodeDecodeError. -/
def utf8DecodeList : List Nat → Option (List Char)
  | [] => some []
  | b :: bs =>
    if b < 0x80 then
      (utf8DecodeList bs).map (fun cs => Char.ofNat b :: cs)
    else if b < 0xC2 then none
    else if b < 0xE0 then
      match bs with
      | b2 :: bs2 =>
        if utf8Cont b2 then
          (utf8DecodeList bs2).map
            (fun cs => Char.ofNat ((b - 0xC0) * 0x40 + (b2 - 0x80)) :: cs)
        else none
      | [] => none
    else if b < 0xF0 then
      match bs with
      | b2 :: b3 :: bs3 =>
        if utf8Cont b2 ∧ utf8Cont b3 ∧ (b = 0xE0 → 0xA0 ≤ b2) ∧
            (b = 0xED → b2 < 0xA0) then
          (utf8DecodeList bs3).map
            (fun cs =>
              Char.ofNat ((b - 0xE0) * 0x1000 + (b2 - 0x80) * 0x40 +
                (b3 - 0x80)) :: cs)
        else none
      | _ => none
    else if b < 0xF5 then
      match bs with
      | b2 :: b3 :: b4 :: bs4 =>
        if utf8Cont b2 ∧ utf8Cont b3 ∧ utf8Cont b4 ∧ (b = 0xF0 → 0x90 ≤ b2) ∧
            (b = 0xF4 → b2 < 0x90) then
          (utf8DecodeList bs4).map
            (fun cs =>
              Char.ofNat ((b - 0xF0) * 0x40000 + (b2 - 0x80) * 0x1000 +
                (b3 - 0x80) * 0x40 + (b4 - 0x80)) :: cs)
        else none
      | _ => none
    else none

/-- Decoding a byte list to a string, none where Python raises. -/
def utf8Decode (bs : List Nat) : Option String :=
  (utf8DecodeList bs).map String.mk

/-- Embedding of run_ollama_prompt from backend/llm/ollama_runner.py:
spawn the external executable with argument vector
["ollama", "run", model] (model defaults to "llama3"), feed the prompt
UTF-8 encoded as the complete standard-input payload, and return the
captured standard-output bytes decoded as UTF-8. The exit status and
the captured standard error are never inspected; a spawn failure
propagates as the FileNotFoundError raised by subprocess.run. -/
def run_ollama_prompt (env : ProcessEnv) (prompt : String)
    (model : String := "llama3") : Except PyError String :=
  match env ["ollama", "run", model] (utf8Encode prompt) with
  | SpawnResult.spawnError => Except.error PyError.fileNotFound
  | SpawnResult.ok result =>
    match utf8Decode result.stdout with
    | none => Except.error PyError.unicodeDecodeError
    | some s => Except.ok s

/-- The opening brace character, U+007B. -/
def lbrace : Char := Char.ofNat 123

/-- The closing brace character, U+007D. -/
def rbrace : Char := Char.ofNat 125

/-- Scanner state for the str.format model: ordinary text, just after
an opening brace, just after a closing brace, or inside a replacement
field whose name so far is carried along. -/
inductive FmtState where
  | plain
  | afterOpen
  | afterClose
  | inField (name : List Char)

/-- Model of Python str.format called with the single keyword argument
text=value, as a left-to-right scan of the template: doubled braces
are escapes for literal braces, a field named text is replaced by the
value verbatim (the value itself is never rescanned), and everything
Python rejects at format time (a lone brace, an unclosed field, any
field other than text) is none. -/
def formatScan (value : List Char) : FmtState → List Char → Option (List Char)
  | FmtState.plain, [] => some []
  | FmtState.plain, c :: cs =>
    if c = lbrace then formatScan value FmtState.afterOpen cs
    else if c = rbrace then formatScan value FmtState.afterClose cs
    else (formatScan value FmtState.plain cs).map (fun r => c :: r)
  | FmtState.afterOpen, [] => none
  | FmtState.afterOpen, c :: cs =>
    if c = lbrace then
      (formatScan value FmtState.plain cs).map (fun r => lbrace :: r)
    else if c = rbrace then none
    else formatScan value (FmtState.inField [c]) cs
  | FmtState.afterClose, [] => none
  | FmtState.afterClose, c :: cs =>
    if c = rbrace then
      (formatScan value FmtState.plain cs).map (fun r => rbrace :: r)
    else none
  | FmtState.inField _, [] => none
  | FmtState.inField name, c :: cs =>
    if c = rbrace then
      if name = "text".data then
        (formatScan value FmtState.plain cs).map (fun r => value ++ r)
      else none
    else formatScan value (FmtState.inField (name ++ [c])) cs

/-- template.format applied with text=value, at the string level. -/
def pyFormatWithText (template value : String) : Option String :=
  (formatScan value.data FmtState.plain template.data).map String.mk

/-- Embedding of DENSE_SUMMARY_PROMPT from backend/prompts.py,
transcribed verbatim; the braces of the replacement field are written
with hexadecimal escapes. -/
def DENSE_SUMMARY_PROMPT : String :=
  "\nYou are a brilliant technical explainer.\n\nYour goal is to extract and reorganize **deep knowledge** from the provided text, then write a **dense, complete summary** that:\n\n- Compresses the key ideas with clarity and structure\n- Covers everything said, but removes repetition and fluff\n- Fills in any missing logical gaps using your own knowledge\n- Highlights concepts, processes, cause-effect, and structure\n- Uses smart language, without overwhelming jargon\n\n⚠️ The summary should **feel like high-level notes written by a domain expert for fast learning** — every sentence should teach something essential.\n\nUse clear sections, bullet points or headers where helpful. Don\x27t reference the original text, just deliver distilled insight.\n\nTEXT:\n\x7btext\x7d\n"

/-- The literal instructional text of the template standing before the
replacement field. -/
def PROMPT_BEFORE_SLOT : String :=
  "\nYou are a brilliant technical explainer.\n\nYour goal is to extract and reorganize **deep knowledge** from the provided text, then write a **dense, complete summary** that:\n\n- Compresses the key ideas with clarity and structure\n- Covers everything said, but removes repetition and fluff\n- Fills in any missing logical gaps using your own knowledge\n- Highlights concepts, processes, cause-effect, and structure\n- Uses smart language, without overwhelming jargon\n\n⚠️ The summary should **feel like high-level notes written by a domain expert for fast learning** — every sentence should teach something essential.\n\nUse clear sections, bullet points or headers where helpful. Don\x27t reference the original text, just deliver distilled insight.\n\nTEXT:\n"

/-- The literal text of the template standing after the replacement
field: a single newline. -/
def PROMPT_AFTER_SLOT : String := "\n"

/-- Embedding of the slice raw_text[0:5000] performed inside
summarize_text: Python slicing of a str keeps the first 5000 code
points and is the whole string when it is shorter. -/
def truncate_input (raw_text : String) : String :=
  String.mk (raw_text.data.take 5000)

/-- The templated prompt summarize_text builds:
DENSE_SUMMARY_PROMPT.format applied with text set to the truncated
input. -/
def build_prompt (raw_text : String) : Option String :=
  pyFormatWithText DENSE_SUMMARY_PROMPT (truncate_input raw_text)

/-- Embedding of summarize_text from backend/summarize.py: truncate the
raw text to its first 5000 characters, substitute it into the template,
call the Runner with the prompt (and the default model), and return the
Runner output unchanged. -/
def summarize_text (env : ProcessEnv) (raw_text : String) :
    Except PyError String :=
  match build_prompt raw_text with
  | none => Except.error PyError.formatError
  | some prompt => run_ollama_prompt env prompt

/-- Embedding of the standalone entry point of backend/summarize.py:
read sys.argv at index 1 (IndexError when absent), open and read that
file as text through the file-system oracle (an OSError family failure
when unreadable), summarize the contents and return the string that
gets printed. Arguments beyond the first are never looked at. -/
def main_entry (fs : String → Option String) (env : ProcessEnv)
    (argv : List String) : Except PyError String :=
  match argv.get? 1 with
  | none => Except.error PyError.indexError
  | some path =>
    match fs path with
    | none => Except.error PyError.ioError
    | some raw => summarize_text env raw

/-! ## General helper lemmas -/

theorem string_eq_of_data {s t : String} (h : s.data = t.data) : s = t := by
  cases s
  cases t
  exact congrArg String.mk h

theorem data_mk (l : List Char) : (String.mk l).data = l := rfl

/-- The template is the before-slot text, an opening brace, the field
name text, a closing brace, and the after-slot text. -/
theorem template_split :
    DENSE_SUMMARY_PROMPT.data =
      PROMPT_BEFORE_SLOT.data ++
        (lbrace :: 't' :: 'e' :: 'x' :: 't' :: rbrace ::
          PROMPT_AFTER_SLOT.data) := by
  decide

/-- The before-slot text contains no brace character. -/
theorem plainChars_before :
    ∀ c ∈ PROMPT_BEFORE_SLOT.data, c ≠ lbrace ∧ c ≠ rbrace := by
  decide

/-- Brace-free characters pass through the format scan unchanged. -/
theorem formatScan_plainChars (value l rest : List Char)
    (h : ∀ c ∈ l, c ≠ lbrace ∧ c ≠ rbrace) :
    formatScan value FmtState.plain (l ++ rest) =
      (formatScan value FmtState.plain rest).map (fun r => l ++ r) := by
  induction l with
  | nil =>
    simp only [List.nil_append]
    cases formatScan value FmtState.plain rest <;> rfl
  | cons c cs ih =>
    have hc := h c (List.mem_cons_self c cs)
    have ih' := ih (fun x hx => h x (List.mem_cons_of_mem c hx))
    rw [List.cons_append]
    simp only [formatScan]
    rw [if_neg hc.1, if_neg hc.2, ih']
    cases formatScan value FmtState.plain rest <;> rfl

/-- The replacement field named text substitutes the value verbatim. -/
theorem formatScan_slot (value rest : List Char) :
    formatScan value FmtState.plain
        (lbrace :: 't' :: 'e' :: 'x' :: 't' :: rbrace :: rest) =
      (formatScan value FmtState.plain rest).map (fun r => value ++ r) := rfl

/-- The after-slot text passes through the format scan unchanged. -/
theorem formatScan_after (value : List Char) :
    formatScan value FmtState.plain PROMPT_AFTER_SLOT.data =
      some PROMPT_AFTER_SLOT.data := rfl

/-- Formatting the whole template: before-slot text, then the value,
then the after-slot text, and nothing else. -/
theorem formatScan_template (value : List Char) :
    formatScan value FmtState.plain DENSE_SUMMARY_PROMPT.data =
      some (PROMPT_BEFORE_SLOT.data ++ (value ++ PROMPT_AFTER_SLOT.data)) := by
  rw [template_split]
  rw [formatScan_plainChars value PROMPT_BEFORE_SLOT.data _ plainChars_before]
  rw [formatScan_slot]
  rw [formatScan_after]
  rfl

/-- The prompt summarize_text builds, in closed form. -/
theorem build_prompt_eq (raw : String) :
    build_prompt raw =
      some (PROMPT_BEFORE_SLOT ++ truncate_input raw ++ PROMPT_AFTER_SLOT) := by
  unfold build_prompt pyFormatWithText
  rw [formatScan_template]
  show some (String.mk (PROMPT_BEFORE_SLOT.data ++
    ((truncate_input raw).data ++ PROMPT_AFTER_SLOT.data))) = _
  refine congrArg some (string_eq_of_data ?_)
  simp [String.data_append, data_mk]

/-- summarize_text is exactly the Runner applied to the built prompt,
with the model argument left to its default. -/
theorem summarize_text_eq (env : ProcessEnv) (raw : String) :
    summarize_text env raw =
      run_ollama_prompt env
        (PROMPT_BEFORE_SLOT ++ truncate_input raw ++ PROMPT_AFTER_SLOT) := by
  unfold summarize_text
  rw [build_prompt_eq]

/-- For a process that ran to completion, the Runner result is the
decoding of the captured standard-output bytes, whatever the exit
status and standard error were. -/
theorem run_completed_eq (env : ProcessEnv) (prompt model : String)
    (r : ProcResult)
    (h : env ["ollama", "run", model] (utf8Encode prompt) = SpawnResult.ok r) :
    run_ollama_prompt env prompt model =
      match utf8Decode r.stdout with
      | none => Except.error PyError.unicodeDecodeError
      | some s => Except.ok s := by
  unfold run_ollama_prompt
  rw [h]

/-- Truncation is idempotent at the data level. -/
theorem truncate_input_idem (raw : String) :
    truncate_input (truncate_input raw) = truncate_input raw := by
  apply string_eq_of_data
  show (raw.data.take 5000).take 5000 = raw.data.take 5000
  rw [List.take_take, Nat.min_self]

/-! ## The claims -/

/-- Claim C1: for every raw input text, the text substituted into the
prompt template is the first min(length, 5000) characters of the input;
an input shorter than 5000 characters passes unchanged, a longer one is
cut to exactly its first 5000 characters, and the truncated text always
has length at most 5000. -/
theorem C1_truncation (raw : String) :
    (truncate_input raw).data = raw.data.take (min raw.length 5000) ∧
    (truncate_input raw).length ≤ 5000 ∧
    (raw.length < 5000 → truncate_input raw = raw) ∧
    (5000 < raw.length → (truncate_input raw).data = raw.data.take 5000) := by
  refine ⟨?_, ?_, ?_, fun _ => rfl⟩
  · show raw.data.take 5000 = raw.data.take (min raw.length 5000)
    rcases le_or_lt raw.length 5000 with h | h
    · rw [min_eq_left h]
      have h1 : raw.data.take 5000 = raw.data := List.take_of_length_le h
      have h2 : raw.data.take raw.length = raw.data :=
        List.take_of_length_le (le_of_eq (rfl : raw.data.length = raw.length))
      rw [h1, h2]
    · rw [min_eq_right (le_of_lt h)]
  · show (raw.data.take 5000).length ≤ 5000
    rw [List.length_take]
    exact Nat.min_le_left _ _
  · intro h
    apply string_eq_of_data
    show raw.data.take 5000 = raw.data
    exact List.take_of_length_le (Nat.le_of_lt h)

/-- Claim C1, witnessed at a concrete short input. -/
theorem C1_truncation_witness :
    ("abc" : String).length < 5000 ∧ truncate_input "abc" = "abc" :=
  ⟨by decide, (C1_truncation "abc").2.2.1 (by decide)⟩

/-- Claim C2, counterexample: the claim says a missing external
executable is not distinguished and the captured (empty) output is
still decoded and returned; but in an environment where the spawn
itself fails, run_ollama_prompt propagates the FileNotFoundError that
subprocess.run raises, and in particular does not return the empty
string. -/
theorem C2_counterexample :
    run_ollama_prompt (fun _ _ => SpawnResult.spawnError) "p" "llama3" =
      Except.error PyError.fileNotFound ∧
    run_ollama_prompt (fun _ _ => SpawnResult.spawnError) "p" "llama3" ≠
      Except.ok "" := by
  refine ⟨rfl, ?_⟩
  intro h
  exact Except.noConfusion h

/-- Claim C2 as amended: for every prompt and model, whenever the
external process runs to completion, run_ollama_prompt never inspects
the exit status or the captured standard error: it returns the captured
standard-output bytes decoded as UTF-8, whatever the exit status was.
Only a failure to spawn the executable at all surfaces as an error. -/
theorem C2_exit_status_ignored (env : ProcessEnv) (prompt model : String)
    (r : ProcResult)
    (h : env ["ollama", "run", model] (utf8Encode prompt) = SpawnResult.ok r) :
    run_ollama_prompt env prompt model =
      match utf8Decode r.stdout with
      | none => Except.error PyError.unicodeDecodeError
      | some s => Except.ok s := by
  unfold run_ollama_prompt
  rw [h]

/-- Claim C2 as amended, witnessed: a process that exits with status 1
writing nothing still yields the empty string, pinning the silent
swallowing of non-zero exit. -/
theorem C2_exit_status_ignored_witness :
    run_ollama_prompt (fun _ _ => SpawnResult.ok ⟨1, [], []⟩) "p" "llama3" =
      Except.ok "" :=
  (C2_exit_status_ignored (fun _ _ => SpawnResult.ok ⟨1, [], []⟩) "p" "llama3"
    ⟨1, [], []⟩ rfl).trans rfl

/-- Claim C3: the templated prompt contains the literal instructional
text of the template surrounding the slot, with the slot replaced
verbatim by the truncated input and no other substitution anywhere. -/
theorem C3_template_substitution (raw : String) :
    build_prompt raw =
      some (PROMPT_BEFORE_SLOT ++ truncate_input raw ++ PROMPT_AFTER_SLOT) ∧
    DENSE_SUMMARY_PROMPT =
      PROMPT_BEFORE_SLOT ++ String.mk [lbrace] ++ "text" ++
        String.mk [rbrace] ++ PROMPT_AFTER_SLOT :=
  ⟨build_prompt_eq raw, by decide⟩

/-- Claim C4: summarize_text returns exactly the Runner output for the
templated prompt, with no further transformation. -/
theorem C4_returns_runner_output (env : ProcessEnv) (raw : String) :
    summarize_text env raw =
      run_ollama_prompt env
        (PROMPT_BEFORE_SLOT ++ truncate_input raw ++ PROMPT_AFTER_SLOT) :=
  summarize_text_eq env raw

/-- Claim C5: run_ollama_prompt spawns the external process with
argument vector ["ollama", "run", model], writes the UTF-8 encoded
prompt as the complete standard-input payload (the result depends on
the environment only through that one call), and returns the captured
standard-output bytes decoded as UTF-8. -/
theorem C5_subprocess_contract (env env' : ProcessEnv)
    (prompt model : String) (r : ProcResult) (s : String)
    (hagree : env ["ollama", "run", model] (utf8Encode prompt) =
      env' ["ollama", "run", model] (utf8Encode prompt))
    (hcall : env ["ollama", "run", model] (utf8Encode prompt) =
      SpawnResult.ok r)
    (hdec : utf8Decode r.stdout = some s) :
    run_ollama_prompt env prompt model = Except.ok s ∧
    run_ollama_prompt env prompt model = run_ollama_prompt env' prompt model := by
  have k : run_ollama_prompt env prompt model = Except.ok s := by
    rw [run_completed_eq env prompt model r hcall, hdec]
  have hcall' : env' ["ollama", "run", model] (utf8Encode prompt) =
      SpawnResult.ok r := hagree.symm.trans hcall
  have k' : run_ollama_prompt env' prompt model = Except.ok s := by
    rw [run_completed_eq env' prompt model r hcall', hdec]
  exact ⟨k, k.trans k'.symm⟩

/-- Claim C5, witnessed: a process writing the bytes of "hi" yields the
string "hi". -/
theorem C5_subprocess_contract_witness :
    run_ollama_prompt (fun _ _ => SpawnResult.ok ⟨0, [104, 105], []⟩)
      "p" "llama3" = Except.ok "hi" :=
  (C5_subprocess_contract (fun _ _ => SpawnResult.ok ⟨0, [104, 105], []⟩)
    (fun _ _ => SpawnResult.ok ⟨0, [104, 105], []⟩) "p" "llama3"
    ⟨0, [104, 105], []⟩ "hi" rfl rfl rfl).1

/-- Claim C6, counterexample: the claim says invocations whose argument
count differs from one are not accepted, yet an invocation with two
command-line arguments (three argv entries) is accepted and produces a
summary: the second argument is silently ignored. -/
theorem C6_counterexample :
    (["summarize.py", "a.txt", "b.txt"] : List String).length = 3 ∧
    main_entry (fun _ => some "") (fun _ _ => SpawnResult.ok ⟨0, [], []⟩)
      ["summarize.py", "a.txt", "b.txt"] = Except.ok "" := by
  refine ⟨rfl, ?_⟩
  have h1 : main_entry (fun _ => some "")
      (fun _ _ => SpawnResult.ok ⟨0, [], []⟩)
      ["summarize.py", "a.txt", "b.txt"] =
      summarize_text (fun _ _ => SpawnResult.ok ⟨0, [], []⟩) "" := rfl
  rw [h1, summarize_text_eq]
  rfl

/-- Claim C6 as amended: the entry point requires at least one
command-line argument and uses only the first: it opens and reads that
file as text, forwards the contents through summarize_text and returns
what gets printed, ignoring any further arguments; an invocation with
no argument fails with an unhandled IndexError. -/
theorem C6_cli_arguments (fs : String → Option String) (env : ProcessEnv)
    (prog path : String) (extra : List String) (raw : String)
    (h : fs path = some raw) :
    main_entry fs env (prog :: path :: extra) = summarize_text env raw ∧
    main_entry fs env [prog] = Except.error PyError.indexError ∧
    main_entry fs env [] = Except.error PyError.indexError := by
  refine ⟨?_, rfl, rfl⟩
  have hget : (prog :: path :: extra).get? 1 = some path := rfl
  unfold main_entry
  rw [hget]
  show (match fs path with
        | none => Except.error PyError.ioError
        | some raw => summarize_text env raw) = summarize_text env raw
  rw [h]

/-- Claim C6 as amended, witnessed at a concrete invocation. -/
theorem C6_cli_arguments_witness :
    main_entry (fun _ => some "body") (fun _ _ => SpawnResult.ok ⟨0, [], []⟩)
      ["summarize.py", "in.txt"] =
      summarize_text (fun _ _ => SpawnResult.ok ⟨0, [], []⟩) "body" ∧
    main_entry (fun _ => some "body") (fun _ _ => SpawnResult.ok ⟨0, [], []⟩)
      ["summarize.py"] = Except.error PyError.indexError ∧
    main_entry (fun _ => some "body") (fun _ _ => SpawnResult.ok ⟨0, [], []⟩)
      [] = Except.error PyError.indexError :=
  C6_cli_arguments (fun _ => some "body")
    (fun _ _ => SpawnResult.ok ⟨0, [], []⟩) "summarize.py" "in.txt" [] "body" rfl

/-- Claim C7: when the captured standard-output bytes are not valid
UTF-8, run_ollama_prompt raises the decoding failure instead of
returning a string; no recovery is applied. -/
theorem C7_decode_failure (env : ProcessEnv) (prompt model : String)
    (r : ProcResult)
    (hcall : env ["ollama", "run", model] (utf8Encode prompt) =
      SpawnResult.ok r)
    (hbad : utf8Decode r.stdout = none) :
    run_ollama_prompt env prompt model =
      Except.error PyError.unicodeDecodeError := by
  rw [run_completed_eq env prompt model r hcall, hbad]

/-- Claim C7, witnessed: the single byte 255 is not valid UTF-8 and the
decoding failure escapes. -/
theorem C7_decode_failure_witness :
    run_ollama_prompt (fun _ _ => SpawnResult.ok ⟨0, [255], []⟩)
      "p" "llama3" = Except.error PyError.unicodeDecodeError :=
  C7_decode_failure (fun _ _ => SpawnResult.ok ⟨0, [255], []⟩) "p" "llama3"
    ⟨0, [255], []⟩ rfl rfl

/-- Claim C8: summarize_text calls the Runner without a model argument,
so the default model "llama3" is used on every invocation reachable
through the public pipeline and the only spawned command line is
["ollama", "run", "llama3"]: the result depends on the environment
only through its behaviour at that argument vector. -/
theorem C8_default_model (env env' : ProcessEnv) (raw : String)
    (h : ∀ stdin, env ["ollama", "run", "llama3"] stdin =
      env' ["ollama", "run", "llama3"] stdin) :
    summarize_text env raw =
      run_ollama_prompt env
        (PROMPT_BEFORE_SLOT ++ truncate_input raw ++ PROMPT_AFTER_SLOT)
        "llama3" ∧
    summarize_text env raw = summarize_text env' raw := by
  have h1 := summarize_text_eq env raw
  have h2 := summarize_text_eq env' raw
  refine ⟨h1, ?_⟩
  rw [h1, h2]
  unfold run_ollama_prompt
  rw [h _]

/-- Claim C8, witnessed at a concrete environment and input. -/
theorem C8_default_model_witness :
    summarize_text (fun _ _ => SpawnResult.ok ⟨0, [], []⟩) "t" =
      run_ollama_prompt (fun _ _ => SpawnResult.ok ⟨0, [], []⟩)
        (PROMPT_BEFORE_SLOT ++ truncate_input "t" ++ PROMPT_AFTER_SLOT)
        "llama3" ∧
    summarize_text (fun _ _ => SpawnResult.ok ⟨0, [], []⟩) "t" =
      summarize_text (fun _ _ => SpawnResult.ok ⟨0, [], []⟩) "t" :=
  C8_default_model (fun _ _ => SpawnResult.ok ⟨0, [], []⟩)
    (fun _ _ => SpawnResult.ok ⟨0, [], []⟩) "t" (fun _ => rfl)

/-- Claim C9: at the boundary case of an input of exactly 5000
characters, the text substituted into the template is the input
unchanged. -/
theorem C9_boundary (raw : String) (h : raw.length = 5000) :
    truncate_input raw = raw := by
  apply string_eq_of_data
  show raw.data.take 5000 = raw.data
  exact List.take_of_length_le (Nat.le_of_eq h)

/-- A concrete string of exactly 5000 characters. -/
def fiveThousandAs : String := String.mk (List.replicate 5000 (Char.ofNat 97))

/-- Claim C9, witnessed at a concrete 5000-character input. -/
theorem C9_boundary_witness :
    fiveThousandAs.length = 5000 ∧
    truncate_input fiveThousandAs = fiveThousandAs := by
  have h : fiveThousandAs.length = 5000 := by
    unfold fiveThousandAs
    rw [String.length]
    exact List.length_replicate 5000 (Char.ofNat 97)
  exact ⟨h, C9_boundary fiveThousandAs h⟩

/-- Claim C10: truncation is idempotent: summarize_text builds the same
templated prompt, and produces the same result, for an input and for
that input already truncated to 5000 characters. -/
theorem C10_truncation_idempotent (env : ProcessEnv) (raw : String) :
    build_prompt (truncate_input raw) = build_prompt raw ∧
    summarize_text env (truncate_input raw) = summarize_text env raw := by
  have hb : build_prompt (truncate_input raw) = build_prompt raw := by
    unfold build_prompt
    rw [truncate_input_idem]
  refine ⟨hb, ?_⟩
  unfold summarize_text
  rw [hb]

end DistyVault
